import Mathlib

/-!
Shallow embedding of the `cather-site` repository (catheter-site triage demo).

The repository's `src/` holds the browser client, `frontend/app.js`.  Its pure
rendering logic (feature indicators, status dot, history list, analyze flow)
is embedded below as Lean functions over an explicit model of the JavaScript
values involved.  DOM elements are modelled as fields of a `UIState` record;
each JS helper that writes the DOM becomes a function from `UIState` (plus its
arguments) to `UIState`, or a pure function returning the rendered fragment.

JavaScript primitive values relevant to the client are modelled by `JSPrim`
(numbers as rationals — floating-point rounding plays no role in any claim;
`NaN` is outside the model).  Truthiness and the `??` operator are modelled
explicitly.  `Date.toLocaleString` and `toFixed` are environment/IEEE-754
formatting; they are modelled by simple total stand-ins on unclaimed ground.

The backend (`backend/app.py` per the README) is not under `src/`; the
normalizer used by claim C1 is therefore modelled from the spec (§4.1) and
marked as such in its doc comment.
-/

/-- A JavaScript primitive value as it reaches the frontend helpers. -/
inductive JSPrim where
  | null
  | undefined
  | bool (b : Bool)
  | num (q : ℚ)
  | str (s : String)
deriving DecidableEq, Repr

/-- An object holding the feature sub-fields the frontend reads
(`present`, `yes`, `extent_percent`, `type`, `amount`); a field the JSON
object lacks is `JSPrim.undefined`, matching JS property access on a missing key. -/
structure FeatObj where
  present : JSPrim
  yes : JSPrim
  extent_percent : JSPrim
  type : JSPrim
  amount : JSPrim
deriving DecidableEq, Repr

/-- A `FeatureValue` as seen by `describeFeature`/`indicatorClass`: either a
primitive (including `null`/`undefined` for an absent feature) or an object. -/
inductive FeatureValue where
  | prim (p : JSPrim)
  | obj (o : FeatObj)
deriving DecidableEq, Repr

/-- JS truthiness of a primitive (`NaN` is outside the model). -/
def truthyP : JSPrim → Bool
  | .null => false
  | .undefined => false
  | .bool b => b
  | .num q => decide (q ≠ 0)
  | .str s => decide (s ≠ "")

/-- JS truthiness of a feature value: objects are always truthy. -/
def truthy : FeatureValue → Bool
  | .prim p => truthyP p
  | .obj _ => true

/-- Property access `value.present`: `undefined` unless `value` is an object.
(The source only dereferences after a truthiness or optional-chaining guard,
so primitive receivers never throw on the guarded paths.) -/
def vPresent : FeatureValue → JSPrim
  | .obj o => o.present
  | .prim _ => .undefined

/-- Property access `value.yes`. -/
def vYes : FeatureValue → JSPrim
  | .obj o => o.yes
  | .prim _ => .undefined

/-- Property access `value.extent_percent`. -/
def vExtent : FeatureValue → JSPrim
  | .obj o => o.extent_percent
  | .prim _ => .undefined

/-- Property access `value.type`. -/
def vType : FeatureValue → JSPrim
  | .obj o => o.type
  | .prim _ => .undefined

/-- Property access `value.amount`. -/
def vAmount : FeatureValue → JSPrim
  | .obj o => o.amount
  | .prim _ => .undefined

/-- Template-literal stringification of a primitive (number formatting is a
simple stand-in for JS number-to-string; no claim depends on it). -/
def jsToString : JSPrim → String
  | .null => "null"
  | .undefined => "undefined"
  | .bool true => "true"
  | .bool false => "false"
  | .num q => toString q
  | .str s => s

/-- The nullish-coalescing operator `a ?? b`. -/
def nullishOr (a b : JSPrim) : JSPrim :=
  match a with
  | .null => b
  | .undefined => b
  | p => p

/-- ASCII `toLowerCase`, the fragment of JS `String.prototype.toLowerCase`
relevant to comparing against the ASCII label vocabulary. -/
def jsToLower (s : String) : String :=
  ⟨s.data.map Char.toLower⟩

/-- `featureLabels` from `frontend/app.js` lines 36–47: the fixed feature
vocabulary, in source order, with display labels. -/
def featureLabels : List (String × String) :=
  [("redness", "Redness"),
   ("swelling", "Swelling"),
   ("dressing_lift", "Dressing lift"),
   ("discharge", "Discharge"),
   ("exposed_catheter", "Exposed catheter"),
   ("open_wound", "Open wound"),
   ("bruising", "Bruising"),
   ("crusting", "Crusting"),
   ("erythema_border_sharp", "Sharp erythema border"),
   ("fluctuance", "Fluctuance")]

/-- `confidenceClass` from `frontend/app.js` lines 49–54, including the
`value > 0` branch that returns the same string as the final default. -/
def confidenceClass (value : ℚ) : String :=
  if value ≥ 0.75 then "chip success"
  else if value ≥ 0.45 then "chip warn"
  else if value > 0 then "chip muted"
  else "chip muted"

/-- The three-way threshold function the spec describes for the confidence
chip (success at ≥ 0.75, warn at ≥ 0.45, muted below): the candidate
simplification claim C10 compares `confidenceClass` against. -/
def confidenceClassSpec (value : ℚ) : String :=
  if value ≥ 0.75 then "chip success"
  else if value ≥ 0.45 then "chip warn"
  else "chip muted"

/-- `describeFeature` from `frontend/app.js` lines 96–111. -/
def describeFeature (name : String) (value : FeatureValue) : String :=
  if !truthy value then "Not detected"
  else if name = "discharge" && truthyP (vPresent value) then
    (if truthyP (vType value) then jsToString (vType value) else "discharge")
      ++ " present"
      ++ (if truthyP (vAmount value)
          then " (" ++ jsToString (vAmount value) ++ ")" else "")
  else if name = "redness" && truthyP (vPresent value) then
    "Extent " ++ jsToString (nullishOr (vExtent value) (.num 0)) ++ "%"
  else if name = "swelling" && truthyP (vPresent value) then
    "Extent " ++ jsToString (nullishOr (vExtent value) (.num 0)) ++ "%"
  else if name = "erythema_border_sharp" then
    (if truthyP (vYes value) then "Defined border" else "Diffuse border")
  else if truthyP (vPresent value) then "Present"
  else "Not detected"

/-- `indicatorClass` from `frontend/app.js` lines 113–120. -/
def indicatorClass (name : String) (value : FeatureValue) : String :=
  if !truthy value then "indicator neutral"
  else if name = "dressing_lift" && truthyP (vPresent value) then "indicator alert"
  else if name = "discharge" && truthyP (vPresent value) then "indicator danger"
  else if name = "open_wound" && truthyP (vPresent value) then "indicator danger"
  else if truthyP (vPresent value) || truthyP (vYes value) then "indicator alert"
  else "indicator neutral"

/-- One rendered indicator card (lines 131–137): vocabulary key, display
label, CSS class, description text and the presence mark glyph. -/
structure Indicator where
  key : String
  label : String
  cls : String
  desc : String
  mark : String
deriving DecidableEq, Repr

/-- What `renderIndicators` writes into `#indicatorList`: either the
"no indicators" note or the list of cards. -/
inductive IndicatorView where
  | note (s : String)
  | items (l : List Indicator)
deriving DecidableEq, Repr

/-- `features[key]` on the features object: `undefined` when the key is
absent (first match wins, as JS object keys are unique). -/
def lookupFeature (features : List (String × FeatureValue)) (k : String) :
    FeatureValue :=
  match features.find? (fun p => p.1 = k) with
  | some p => p.2
  | none => .prim .undefined

/-- `renderIndicators` from `frontend/app.js` lines 122–139: iterates the
fixed `featureLabels` vocabulary (never the input mapping), computing for
each key the class, description and `value?.present || value?.yes || false`
presence mark. -/
def renderIndicators (features : List (String × FeatureValue)) : IndicatorView :=
  let entries := featureLabels
  if entries.isEmpty then .note "No indicators returned."
  else .items (entries.map (fun kv =>
    let value := lookupFeature features kv.1
    let present := truthyP (vPresent value) || truthyP (vYes value)
    ⟨kv.1, kv.2, indicatorClass kv.1 value, describeFeature kv.1 value,
     if present then "⚠︎" else "✔︎"⟩))

/-- The classification summary record as `renderSummary` reads it
(`label`, `risk_score`, `explanation`, `overall_confidence`). -/
structure Classification where
  label : String
  risk_score : JSPrim
  explanation : String
  overall_confidence : JSPrim
deriving DecidableEq, Repr

/-- What `renderSummary`/`setStatusDot` write into the summary card and the
status dot. -/
structure SummaryView where
  labelText : String
  riskText : String
  explanationText : String
  confidenceText : String
  confidenceClassName : String
  dotClass : String
  dotTitle : String
deriving DecidableEq, Repr

/-- The property names a bare object literal inherits from
`Object.prototype` (ECMA-262 §20.2.3 plus the Annex B members): property
access on `{red:'red',…}` resolves these through the prototype chain, to a
truthy value (a built-in function, or `Object.prototype` itself for the
`__proto__` accessor) — never to `undefined`. -/
def objectProtoKeys : List String :=
  ["constructor", "hasOwnProperty", "isPrototypeOf", "propertyIsEnumerable",
   "toLocaleString", "toString", "valueOf", "__proto__",
   "__defineGetter__", "__defineSetter__", "__lookupGetter__",
   "__lookupSetter__"]

/-- The template-literal stringification of an inherited
`Object.prototype` member: `constructor` is the `Object` constructor
("function Object() { [native code] }"), `__proto__` is
`Object.prototype` ("[object Object]"), and every other member is the
built-in function of that name.  What matters to the claims is that none
of these is the string "neutral". -/
def protoMemberString (k : String) : String :=
  if k = "__proto__" then "[object Object]"
  else if k = "constructor" then "function Object() \x7b [native code] \x7d"
  else "function " ++ k ++ "() \x7b [native code] \x7d"

/-- `setStatusDot` from `frontend/app.js` lines 84–94 as a pure function:
first component is the dot's class name, second its title.  The JS object
lookup `{red:'red',…}[normalized] || 'neutral'` checks the four own keys
first (their values are truthy strings), then the prototype chain: a
normalized label naming an `Object.prototype` member yields that truthy
inherited value, stringified into the class name, so `|| 'neutral'` fires
only when the key is found nowhere on the chain. -/
def setStatusDot (label : String) : String × String :=
  let normalized := jsToLower label
  let color :=
    if normalized = "red" then "red"
    else if normalized = "yellow" then "yellow"
    else if normalized = "green" then "green"
    else if normalized = "uncertain" then "uncertain"
    else if normalized ∈ objectProtoKeys then protoMemberString normalized
    else "neutral"
  ("status-dot " ++ color, label ++ " indicator")

/-- `value || 0` on the confidence field: coerce a primitive to the number
fed to `confidenceClass` (a non-number is falsy-or-unclaimed here; the
source never passes a truthy non-number on the claimed paths). -/
def numOr0 : JSPrim → ℚ
  | .num q => q
  | _ => 0

/-- Stand-in for `(q * 100).toFixed(0)` (IEEE-754 formatting is on
unclaimed ground): the rounded percentage, printed. -/
def fmtPercent (q : ℚ) : String :=
  toString (round (q * 100))

/-- `renderSummary` from `frontend/app.js` lines 75–82 as a pure function
producing the summary card, including the `setStatusDot` call. -/
def renderSummary (classification : Classification) : SummaryView :=
  let dot := setStatusDot classification.label
  ⟨classification.label,
   "Risk score: " ++ jsToString classification.risk_score,
   classification.explanation,
   "Confidence " ++ fmtPercent (numOr0 classification.overall_confidence) ++ "%",
   confidenceClass (numOr0 classification.overall_confidence),
   dot.1, dot.2⟩

/-- One history entry as the frontend consumes it (`/history` item or
`/analyze` 200 body): `classification` and the raw `gemini` features may be
absent in a malformed entry. -/
structure HistoryEntry where
  id : String
  timestamp : String
  image_url : String
  classification : Option Classification
  gemini_features : Option (List (String × FeatureValue))
deriving DecidableEq, Repr

/-- One rendered history card (lines 162–171). -/
structure HistoryItem where
  imageSrc : String
  label : String
  time : String
  viewId : String
deriving DecidableEq, Repr

/-- What `renderHistory` writes into `#historyList`. -/
inductive HistoryView where
  | note (s : String)
  | items (l : List HistoryItem)
deriving DecidableEq, Repr

/-- Stand-in for `new Date(iso).toLocaleString()` (locale formatting is
environment-specific and on unclaimed ground). -/
def localeFormat (iso : String) : String :=
  iso

/-- `formatTimestamp` from `frontend/app.js` lines 145–152. -/
def formatTimestamp (iso : String) : String :=
  if iso = "" then "Unknown time"
  else localeFormat iso

/-- The DOM and client state touched by the embedded handlers: active
screen, status line, button loading state, the rendered fragments, and the
module-level `cachedHistory`. -/
structure UIState where
  screen : String
  statusMsg : String
  statusType : String
  analyzeDisabled : Bool
  cameraDisabled : Bool
  analyzeText : String
  cachedHistory : List HistoryEntry
  historyView : HistoryView
  summary : Option SummaryView
  indicators : Option IndicatorView
  jsonDoc : Option HistoryEntry
deriving DecidableEq, Repr

/-- `setScreen` from `frontend/app.js` lines 56–62. -/
def setScreen (st : UIState) (name : String) : UIState :=
  { st with screen := name }

/-- `setStatus` from `frontend/app.js` lines 64–67. -/
def setStatus (st : UIState) (message : String) (ty : String) : UIState :=
  { st with statusMsg := message, statusType := ty }

/-- `toggleLoading` from `frontend/app.js` lines 69–73. -/
def toggleLoading (st : UIState) (isLoading : Bool) : UIState :=
  { st with
      analyzeDisabled := isLoading,
      cameraDisabled := isLoading,
      analyzeText := if isLoading then "Analyzing…" else "Analyze photo" }

/-- The history-card label `entry.classification?.label || 'Unknown'`
(line 161): `undefined` when `classification` is nullish, and `||` also
catches an empty-string label. -/
def historyLabel (entry : HistoryEntry) : String :=
  match entry.classification with
  | some c => if c.label = "" then "Unknown" else c.label
  | none => "Unknown"

/-- `renderHistory` from `frontend/app.js` lines 154–173: caches the
entries, then renders the empty-state note or one card per entry. -/
def renderHistory (st : UIState) (entries : List HistoryEntry) : UIState :=
  let st := { st with cachedHistory := entries }
  if entries.isEmpty then
    { st with historyView := .note "No assessments stored yet." }
  else
    { st with historyView := .items (entries.map (fun entry =>
        ⟨entry.image_url, historyLabel entry,
         formatTimestamp entry.timestamp, entry.id⟩)) }

/-- Applying the results screen for an entry/response body: `renderSummary`,
`renderIndicators(…?.features)` with the `features = {}` default, and
`renderDocument` (modelled as storing the payload; `JSON.stringify` is pure
formatting).  The source assumes `classification` is present on this path;
a missing one (which would throw in JS) leaves the summary untouched and is
outside every claim. -/
def showResultDoc (st : UIState) (entry : HistoryEntry) : UIState :=
  let st := match entry.classification with
    | some c => { st with summary := some (renderSummary c) }
    | none => st
  { st with
      indicators := some (renderIndicators
        (match entry.gemini_features with
         | some fs => fs
         | none => [])),
      jsonDoc := some entry }

/-- `displayHistoryEntry` from `frontend/app.js` lines 186–194: look the id
up in `cachedHistory`; on a miss return with no change at all. -/
def displayHistoryEntry (st : UIState) (id : String) : UIState :=
  match st.cachedHistory.find? (fun item => item.id = id) with
  | none => st
  | some entry =>
    setStatus (setScreen (showResultDoc st entry) "results")
      "Displaying saved assessment" "success"

/-- The `/analyze` fetch outcome as `runAnalysis` branches on it: `ok` with
the parsed 200 body, or a non-ok status carrying the error string the code
extracts (`payload.error` when the body parses as JSON, else the body
text — an absent `error` field and an empty text body both yield `""`,
which is falsy). -/
inductive AnalyzeResponse where
  | ok (data : HistoryEntry)
  | err (msg : String)
deriving DecidableEq, Repr

/-- `runAnalysis` from `frontend/app.js` lines 244–270, with the fetch
outcome and the follow-up `/history` fetch result (`none` when that fetch
fails; its failure is only logged) passed explicitly.  The non-ok branch
throws `new Error(payload.error || 'Unexpected server error')`, whose
message the catch shows via `setStatus(error.message || 'Failed to analyze
image', 'error')`; `finally` re-enables the buttons either way. -/
def runAnalysis (st : UIState) (resp : AnalyzeResponse)
    (hist : Option (List HistoryEntry)) : UIState :=
  let st := toggleLoading (setStatus st "Analyzing image…" "loading") true
  match resp with
  | .err msg =>
    let thrown := if msg = "" then "Unexpected server error" else msg
    let shown := if thrown = "" then "Failed to analyze image" else thrown
    toggleLoading (setStatus st shown "error") false
  | .ok data =>
    let st := setStatus (setScreen (showResultDoc st data) "results")
      "Analysis complete" "success"
    let st := toggleLoading st false
    match hist with
    | some entries => renderHistory st entries
    | none => st

/-- The analyze-button click handler, `frontend/app.js` lines 272–279: with
no selected gallery file (`!files || files.length === 0`) it only reports
the error; otherwise it calls `runAnalysis(files[0])`.  The second
component is the file of the issued `POST /analyze` request (`none` = no
network request was made). -/
def analyzeClick (st : UIState) (files : Option (List String))
    (resp : AnalyzeResponse) (hist : Option (List HistoryEntry)) :
    UIState × Option String :=
  match files with
  | none => (setStatus st "Please choose an image first" "error", none)
  | some [] => (setStatus st "Please choose an image first" "error", none)
  | some (f :: _) => (runAnalysis st resp hist, some f)

/-- A raw JSON-ish value as the external classifier may return it: the
`unknown` input of the normalizer. -/
inductive RawValue where
  | null
  | undefined
  | bool (b : Bool)
  | num (q : ℚ)
  | str (s : String)
  | arr (l : List RawValue)
  | obj (fields : List (String × RawValue))

/-- Field lookup on a raw record (first match wins; JSON object keys are
unique). -/
def lookupField (fields : List (String × RawValue)) (k : String) :
    Option RawValue :=
  (fields.find? (fun p => p.1 = k)).map (fun p => p.2)

/-- A normalized feature value: the recognized sub-fields
(`present`/`yes`, `extent_percent`, `type`, `amount`) kept as-is,
unrecognized ones dropped (`none` = the sub-field was absent). -/
structure NormFeature where
  present : Option RawValue
  yes : Option RawValue
  extent_percent : Option RawValue
  type : Option RawValue
  amount : Option RawValue

/-- The normalized `ClassificationDocument` of spec §3/§4.1.  `risk_score`
is kept as the raw value (the spec imposes no coercion on it beyond the
default `0`); `explanation` defaults to the empty string. -/
structure ClassificationDocument where
  label : String
  risk_score : RawValue
  explanation : String
  overall_confidence : ℚ
  features : List (String × NormFeature)

/-- The label vocabulary of spec §3. -/
def labelVocab : List String :=
  ["red", "yellow", "green", "uncertain"]

/-- The fixed feature-key vocabulary of spec §3, in spec order. -/
def featureKeys : List String :=
  ["redness", "swelling", "dressing_lift", "discharge", "exposed_catheter",
   "open_wound", "bruising", "crusting", "erythema_border_sharp",
   "fluctuance"]

/-- The default document of spec §4.1: `label="uncertain"`, `risk_score=0`,
`explanation=""`, `overall_confidence=0`, `features={}`. -/
def defaultDoc : ClassificationDocument :=
  ⟨"uncertain", .num 0, "", 0, []⟩

/-- Modelled from the spec: label rule of §4.1 ("lowercase and match
against {red, yellow, green, uncertain}; any non-matching value maps to
\"uncertain\"" — a non-string value matches nothing). -/
def normLabel (v : Option RawValue) : String :=
  match v with
  | some (.str s) =>
    let l := jsToLower s
    if l ∈ labelVocab then l else "uncertain"
  | _ => "uncertain"

/-- Modelled from the spec: confidence rule of §4.1 ("coerce to number; if
not a finite number in [0,1], clamp into [0,1] if numeric but out of
range, else default to 0"; rationals are always finite). -/
def normConfidence (v : Option RawValue) : ℚ :=
  match v with
  | some (.num q) => max 0 (min 1 q)
  | _ => 0

/-- Modelled from the spec: explanation defaults to the empty string when
absent or not text (§3). -/
def normExplanation (v : Option RawValue) : String :=
  match v with
  | some (.str s) => s
  | _ => ""

/-- Modelled from the spec: risk_score is passed through with default `0`
(§3 imposes no hard validation; §4.1 only fixes the default). -/
def normRisk (v : Option RawValue) : RawValue :=
  match v with
  | some r => r
  | none => .num 0

/-- Modelled from the spec: feature rule of §4.1 ("if the corresponding
value is present and record-shaped, keep recognized sub-fields and drop
unrecognized ones; otherwise the feature is treated as absent"). -/
def normFeatureVal (v : Option RawValue) : Option NormFeature :=
  match v with
  | some (.obj fs) =>
    some ⟨lookupField fs "present", lookupField fs "yes",
          lookupField fs "extent_percent", lookupField fs "type",
          lookupField fs "amount"⟩
  | _ => none

/-- Modelled from the spec: the features mapping of §4.1, iterating only
the fixed vocabulary so unknown keys in the raw input are never
propagated. -/
def normFeatures (v : Option RawValue) : List (String × NormFeature) :=
  match v with
  | some (.obj ff) =>
    featureKeys.filterMap (fun k =>
      (normFeatureVal (lookupField ff k)).map (fun nf => (k, nf)))
  | _ => []

/-- Modelled from the spec: normalization of the `classification`
sub-object (or its absence/malformation, which yields the default
document). -/
def normalizeClassification (co : Option RawValue) : ClassificationDocument :=
  match co with
  | some (.obj cf) =>
    ⟨normLabel (lookupField cf "label"),
     normRisk (lookupField cf "risk_score"),
     normExplanation (lookupField cf "explanation"),
     normConfidence (lookupField cf "overall_confidence"),
     normFeatures (lookupField cf "features")⟩
  | _ => defaultDoc

/-- Modelled from the spec: `ClassificationNormalizer.normalize` (§4.1).
The backend implementing it (`backend/app.py` per the README) is not under
`src/`; this definition follows the spec's rules: a non-record input or a
missing classification sub-object yields the default document, otherwise
each field is normalized by its rule above.  As a Lean function it is
total by construction.  (Namespaced: Mathlib already has a root
`normalize`.) -/
def Normalizer.normalize (raw : RawValue) : ClassificationDocument :=
  match raw with
  | .obj fields => normalizeClassification (lookupField fields "classification")
  | _ => defaultDoc

/-! Theorems settling the claims, with shared example values first. -/

/-- A concrete initial client state (upload screen, idle buttons, empty
cached history), used by the concrete witnesses below. -/
def st0 : UIState :=
  ⟨"upload", "", "", false, false, "Analyze photo", [],
   .note "No assessments stored yet.", none, none, none⟩

/-- A concrete history entry with a distinct id. -/
def entry0 : HistoryEntry :=
  ⟨"abc", "2024-01-01T00:00:00Z", "/img/abc.jpg",
   some ⟨"green", .num 0, "ok", .num 1⟩, none⟩

/-- A concrete history entry whose `classification` is missing. -/
def entryNoClass : HistoryEntry :=
  ⟨"e1", "", "/img/e1.jpg", none, none⟩

/-- The claim's reading of an optional string field as a JS value: the
field carries a string when present, `undefined` when absent. -/
def optStr : Option String → JSPrim
  | some s => .str s
  | none => .undefined

/-- Claim C9's predicted type word: the type itself, or the word
"discharge" when the type is absent. -/
def claimTypeWord : Option String → String
  | some s => s
  | none => "discharge"

/-- Claim C9's predicted amount suffix: parenthesised exactly when the
amount is present. -/
def claimAmountSuffix : Option String → String
  | some s => " (" ++ s ++ ")"
  | none => ""

/-- The amended type word: the type when it is a nonempty string, the word
"discharge" when it is absent or empty (JS `||` treats `""` as absent). -/
def amendedTypeWord : Option String → String
  | some s => if s = "" then "discharge" else s
  | none => "discharge"

/-- The amended amount suffix: parenthesised exactly when the amount is a
nonempty string (JS `?:` treats `""` as absent). -/
def amendedAmountSuffix : Option String → String
  | some s => if s = "" then "" else " (" ++ s ++ ")"
  | none => ""

/-- The normalized label always lies in the vocabulary. -/
theorem normLabel_mem (v : Option RawValue) : normLabel v ∈ labelVocab := by
  unfold normLabel
  split
  · dsimp only
    split_ifs with h
    · exact h
    · simp [labelVocab]
  · simp [labelVocab]

/-- The normalized confidence is nonnegative. -/
theorem normConfidence_nonneg (v : Option RawValue) : 0 ≤ normConfidence v := by
  unfold normConfidence
  split
  · exact le_max_left 0 _
  · exact le_refl 0

/-- The normalized confidence is at most one. -/
theorem normConfidence_le_one (v : Option RawValue) : normConfidence v ≤ 1 := by
  unfold normConfidence
  split
  · exact max_le (by norm_num) (min_le_left 1 _)
  · norm_num

/-- C1: `normalize` is total — it is a Lean function, defined on every
`RawValue` including `null`, non-records, and records with missing or
wrongly-typed fields — and for every raw input the resulting document's
label is one of {red, yellow, green, uncertain} and its overall
confidence lies in [0, 1]. -/
theorem normalize_total_label_confidence (raw : RawValue) :
    (Normalizer.normalize raw).label ∈ labelVocab ∧
    0 ≤ (Normalizer.normalize raw).overall_confidence ∧
    (Normalizer.normalize raw).overall_confidence ≤ 1 := by
  have hcls : ∀ co, (normalizeClassification co).label ∈ labelVocab ∧
      0 ≤ (normalizeClassification co).overall_confidence ∧
      (normalizeClassification co).overall_confidence ≤ 1 := by
    intro co
    unfold normalizeClassification
    split
    · exact ⟨normLabel_mem _, normConfidence_nonneg _, normConfidence_le_one _⟩
    · refine ⟨by simp [defaultDoc, labelVocab], by norm_num [defaultDoc], by norm_num [defaultDoc]⟩
  unfold Normalizer.normalize
  split
  · exact hcls _
  · exact ⟨by simp [defaultDoc, labelVocab], by norm_num [defaultDoc], by norm_num [defaultDoc]⟩

/-- C2: for every feature name and every falsy feature value (absent,
`null`, `undefined`, `false`, `0`, `""`), `describeFeature` renders
"Not detected" and `indicatorClass` yields the neutral class. -/
theorem falsy_feature_not_detected_neutral (name : String)
    (value : FeatureValue) (h : truthy value = false) :
    describeFeature name value = "Not detected" ∧
    indicatorClass name value = "indicator neutral" := by
  unfold describeFeature indicatorClass
  rw [h]
  simp

/-- Witness for C2 at the `null` feature value. -/
theorem falsy_feature_not_detected_neutral_witness :
    truthy (.prim .null) = false ∧
    (describeFeature "discharge" (.prim .null) = "Not detected" ∧
     indicatorClass "discharge" (.prim .null) = "indicator neutral") :=
  ⟨rfl, falsy_feature_not_detected_neutral "discharge" (.prim .null) rfl⟩

/-- C3: for every features mapping — unknown keys included —
`renderIndicators` renders exactly the ten fixed-vocabulary features, in
the fixed order; a key outside the vocabulary never produces an
indicator (the rendered keys are exactly this list). -/
theorem renderIndicators_fixed_vocabulary
    (features : List (String × FeatureValue)) :
    ∃ l, renderIndicators features = IndicatorView.items l ∧
      l.map Indicator.key =
        ["redness", "swelling", "dressing_lift", "discharge",
         "exposed_catheter", "open_wound", "bruising", "crusting",
         "erythema_border_sharp", "fluctuance"] := by
  refine ⟨_, rfl, ?_⟩
  simp [featureLabels]

/-- Counterexample to C4 as stated: the label "constructor" is not a
vocabulary word in any letter case, yet the object-literal lookup finds
the inherited `Object.prototype.constructor` — truthy — so the dot's
class is not the neutral one. -/
theorem statusDot_proto_counterexample :
    jsToLower "constructor" ∉ labelVocab ∧
    (renderSummary ⟨"constructor", .num 0, "", .num 1⟩).dotClass ≠
      "status-dot neutral" := by
  constructor
  · decide
  · decide

/-- C4 (amended): the status dot's color is chosen case-insensitively — a
label whose lowercasing equals a vocabulary word maps to that word's dot
color, and any other string maps to neutral unless its lowercasing names
an `Object.prototype` member, which the lookup resolves to the truthy
inherited value, stringified into the class — while the summary's label
text and the dot's title preserve the label's original case. -/
theorem statusDot_case_insensitive_amended (c : Classification) :
    (renderSummary c).labelText = c.label ∧
    (renderSummary c).dotTitle = c.label ++ " indicator" ∧
    (∀ w ∈ labelVocab, jsToLower c.label = w →
      (renderSummary c).dotClass = "status-dot " ++ w) ∧
    (jsToLower c.label ∉ labelVocab →
      jsToLower c.label ∉ objectProtoKeys →
      (renderSummary c).dotClass = "status-dot neutral") ∧
    (jsToLower c.label ∉ labelVocab →
      jsToLower c.label ∈ objectProtoKeys →
      (renderSummary c).dotClass =
        "status-dot " ++ protoMemberString (jsToLower c.label)) := by
  refine ⟨rfl, rfl, ?_, ?_, ?_⟩
  · intro w hw hl
    fin_cases hw <;> simp [renderSummary, setStatusDot, hl]
  · intro h hp
    simp [labelVocab] at h
    obtain ⟨h1, h2, h3, h4⟩ := h
    simp [renderSummary, setStatusDot, h1, h2, h3, h4, hp]
  · intro h hp
    simp [labelVocab] at h
    obtain ⟨h1, h2, h3, h4⟩ := h
    simp [renderSummary, setStatusDot, h1, h2, h3, h4, hp]

/-- Witness for C4's amended theorem: the label "RED" keeps its case and
gets the red dot; the non-vocabulary, non-inherited label "blue" gets the
neutral dot. -/
theorem statusDot_case_insensitive_amended_witness :
    (renderSummary ⟨"RED", .num 0, "", .num 1⟩).labelText = "RED" ∧
    (renderSummary ⟨"RED", .num 0, "", .num 1⟩).dotClass = "status-dot red" ∧
    (renderSummary ⟨"blue", .num 0, "", .num 1⟩).dotClass =
      "status-dot neutral" :=
  ⟨(statusDot_case_insensitive_amended ⟨"RED", .num 0, "", .num 1⟩).1,
   (statusDot_case_insensitive_amended ⟨"RED", .num 0, "", .num 1⟩).2.2.1 "red"
     (by decide) (by decide),
   (statusDot_case_insensitive_amended ⟨"blue", .num 0, "", .num 1⟩).2.2.2.1
     (by decide) (by decide)⟩

/-- Counterexample to C5 as stated: a non-ok response whose error string is
the empty string `""` is surfaced as "Unexpected server error", not as the
response's error string. -/
theorem runAnalysis_error_counterexample :
    (runAnalysis st0 (.err "") none).statusMsg ≠ "" := by
  decide

/-- C5 (amended): for every non-ok `/analyze` response, `runAnalysis` shows
the response's error string — or "Unexpected server error" when that
string is empty — as an error status, leaves the active screen, the
cached history and every rendered result unchanged, and re-enables the
analyze and camera buttons. -/
theorem runAnalysis_error_response (st : UIState) (msg : String)
    (hist : Option (List HistoryEntry)) :
    (runAnalysis st (.err msg) hist).statusMsg =
      (if msg = "" then "Unexpected server error" else msg) ∧
    (runAnalysis st (.err msg) hist).statusType = "error" ∧
    (runAnalysis st (.err msg) hist).screen = st.screen ∧
    (runAnalysis st (.err msg) hist).cachedHistory = st.cachedHistory ∧
    (runAnalysis st (.err msg) hist).historyView = st.historyView ∧
    (runAnalysis st (.err msg) hist).summary = st.summary ∧
    (runAnalysis st (.err msg) hist).indicators = st.indicators ∧
    (runAnalysis st (.err msg) hist).jsonDoc = st.jsonDoc ∧
    (runAnalysis st (.err msg) hist).analyzeDisabled = false ∧
    (runAnalysis st (.err msg) hist).cameraDisabled = false := by
  by_cases h : msg = "" <;>
    simp [runAnalysis, toggleLoading, setStatus, h]

/-- C6: clicking analyze with no gallery file selected (a `null` file list
or an empty one) reports "Please choose an image first" and issues no
`POST /analyze` request. -/
theorem analyzeClick_empty_no_request (st : UIState)
    (files : Option (List String)) (resp : AnalyzeResponse)
    (hist : Option (List HistoryEntry))
    (h : files = none ∨ files = some []) :
    analyzeClick st files resp hist =
      (setStatus st "Please choose an image first" "error", none) := by
  rcases h with h | h <;> subst h <;> rfl

/-- Witness for C6 at a `null` file list. -/
theorem analyzeClick_empty_no_request_witness :
    analyzeClick st0 none (.err "boom") none =
      (setStatus st0 "Please choose an image first" "error", none) :=
  analyzeClick_empty_no_request st0 none (.err "boom") none (Or.inl rfl)

/-- C7: for an id matching no cached history entry, `displayHistoryEntry`
returns the state unchanged: nothing is rendered, screen and status stay
as they were, and no error occurs. -/
theorem displayHistoryEntry_not_found (st : UIState) (id : String)
    (h : ∀ e ∈ st.cachedHistory, e.id ≠ id) :
    displayHistoryEntry st id = st := by
  unfold displayHistoryEntry
  have hfind : st.cachedHistory.find? (fun item => item.id = id) = none := by
    rw [List.find?_eq_none]
    intro e he
    simp [h e he]
  rw [hfind]

/-- Witness for C7: a state caching one entry (id "abc") and a lookup for
the unknown id "missing". -/
theorem displayHistoryEntry_not_found_witness :
    displayHistoryEntry { st0 with cachedHistory := [entry0] } "missing" =
      { st0 with cachedHistory := [entry0] } :=
  displayHistoryEntry_not_found { st0 with cachedHistory := [entry0] }
    "missing" (by decide)

/-- C8: `renderHistory` succeeds on every entries array: with zero entries
it renders the "No assessments stored yet." placeholder, and an entry
whose classification is missing is rendered as a card labelled "Unknown"
(being a total Lean function, it never faults). -/
theorem renderHistory_safe (st : UIState) (entries : List HistoryEntry) :
    (entries = [] → (renderHistory st entries).historyView =
      HistoryView.note "No assessments stored yet.") ∧
    (∀ entry ∈ entries, entry.classification = none →
      ∃ l, (renderHistory st entries).historyView = HistoryView.items l ∧
        (⟨entry.image_url, "Unknown", formatTimestamp entry.timestamp,
          entry.id⟩ : HistoryItem) ∈ l) := by
  constructor
  · intro h
    subst h
    rfl
  · intro e he hc
    rcases entries with _ | ⟨a, as⟩
    · cases he
    · refine ⟨_, rfl, ?_⟩
      have hl : historyLabel e = "Unknown" := by simp [historyLabel, hc]
      have hm := List.mem_map_of_mem (fun entry =>
        (⟨entry.image_url, historyLabel entry,
          formatTimestamp entry.timestamp, entry.id⟩ : HistoryItem)) he
      simp only [hl] at hm
      exact hm

/-- Witness for C8: the empty history renders the placeholder, and a
one-entry history whose entry lacks a classification renders an
"Unknown"-labelled card. -/
theorem renderHistory_safe_witness :
    (renderHistory st0 []).historyView =
      HistoryView.note "No assessments stored yet." ∧
    ∃ l, (renderHistory st0 [entryNoClass]).historyView =
        HistoryView.items l ∧
      (⟨"/img/e1.jpg", "Unknown", formatTimestamp "", "e1"⟩ :
        HistoryItem) ∈ l :=
  ⟨(renderHistory_safe st0 []).1 rfl,
   (renderHistory_safe st0 [entryNoClass]).2 entryNoClass (by simp) rfl⟩

/-- Counterexample to C9 as stated: the discharge value
`{present: true, amount: ""}` has its amount present (the empty string),
yet the rendered description is "discharge present" with no parenthesised
amount — not the claim's predicted `"discharge present ()"`. -/
theorem describeFeature_discharge_counterexample :
    describeFeature "discharge"
        (.obj ⟨.bool true, .undefined, .undefined, optStr none, optStr (some "")⟩) ≠
      claimTypeWord none ++ " present" ++ claimAmountSuffix (some "") := by
  decide

/-- C9 (amended): for every discharge FeatureValue with `present` equal to
`true` and string-or-absent `type`/`amount` fields, the description is
its type when that is a nonempty string (the word "discharge" when the
type is absent or empty) followed by " present", with the amount
appended in parentheses exactly when it is a nonempty string. -/
theorem describeFeature_discharge_amended (o : FeatObj) (t a : Option String)
    (hp : o.present = .bool true) (ht : o.type = optStr t)
    (ha : o.amount = optStr a) :
    describeFeature "discharge" (.obj o) =
      amendedTypeWord t ++ " present" ++ amendedAmountSuffix a := by
  rcases t with _ | ts <;> rcases a with _ | as <;>
    simp [describeFeature, amendedTypeWord, amendedAmountSuffix, optStr,
      truthy, truthyP, vPresent, vType, vAmount, jsToString, hp, ht, ha]

/-- Witness for C9's amended theorem at
`{present: true, type: "purulent", amount: "moderate"}`. -/
theorem describeFeature_discharge_amended_witness :
    describeFeature "discharge"
        (.obj ⟨.bool true, .undefined, .undefined, .str "purulent", .str "moderate"⟩) =
      "purulent present (moderate)" := by
  rw [describeFeature_discharge_amended
    ⟨.bool true, .undefined, .undefined, .str "purulent", .str "moderate"⟩
    (some "purulent") (some "moderate") rfl rfl rfl]
  decide

/-- C10: `confidenceClass` is total on (rational) numbers and equal to the
three-way threshold function: ≥ 0.75 is "chip success", [0.45, 0.75) is
"chip warn", and everything below 0.45 — zero and negatives included —
is "chip muted"; the `value > 0` branch is indistinguishable from the
final default. -/
theorem confidenceClass_eq_threeWay (value : ℚ) :
    confidenceClass value = confidenceClassSpec value := by
  unfold confidenceClass confidenceClassSpec
  split_ifs <;> rfl
